import Mathlib

/-!
Verification of the OpenPSD decoder against its specification.

The C sources are shallowly embedded: byte buffers become `List Nat`
(each element a byte value), machine-integer arithmetic is carried out on
`Nat`/`Int` with explicit reductions modulo `2 ^ w` where the C code can
wrap, and every fallible routine returns `Except PsdStatus`.  Loops whose
progress measure is not structural take an explicit fuel argument; callers
pass a fuel that provably dominates the iteration count (each iteration
consumes at least one unit), so the fuel-exhausted branch is unreachable
from the wrappers.
-/

namespace OpenPSD

/-- Error taxonomy, mirroring the status codes of psd_error.h that the
embedded functions can produce. -/
inductive PsdStatus where
  | ok
  | errInvalidArgument
  | errOutOfMemory
  | errNullPointer
  | errStreamEof
  | errInvalidFileFormat
  | errInvalidHeader
  | errUnsupportedVersion
  | errCorruptData
  | errUnsupportedFeature
  | errUnsupportedCompression
  | errUnsupportedColorMode
  | errBufferTooSmall
  | errOutOfRange
  deriving DecidableEq, Repr

/-- Big-endian 16-bit read from the first two bytes of a buffer
(read_be_u16 in psd_layer_decode.c). -/
def read_be_u16 (p : List Nat) : Nat :=
  p.getD 0 0 * 256 + p.getD 1 0

/-- Big-endian 32-bit read from the first four bytes of a buffer
(read_be_u32 in psd_layer_decode.c). -/
def read_be_u32 (p : List Nat) : Nat :=
  p.getD 0 0 * 16777216 + p.getD 1 0 * 65536 + p.getD 2 0 * 256 + p.getD 3 0

/-- Unsigned 64-bit subtraction with wrap-around, as C computes
`a - b` on uint64 operands (both assumed below 2 ^ 64). -/
def u64sub (a b : Nat) : Nat :=
  (a + 2 ^ 64 - b % 2 ^ 64) % 2 ^ 64

/-! ## PackBits codecs

Two single-row PackBits decoders exist in the sources:
`psd_packbits_decode_row` (psd_layer_decode.c, used for layer channels) and
`psd_rle_decode_scanline` (psd_rle.c, used for the composite image).  Both
are embedded as functions from the compressed bytes and the expected
decompressed length to the decoded bytes paired with the *unconsumed*
input suffix, mirroring the final value of the C `comp_pos`/`si` cursor. -/

/-- Loop of psd_packbits_decode_row.  The C loop runs while
`si < src_len && di < dst_len`; afterwards it demands `si == src_len` and
`di == dst_len`.  Each iteration consumes at least one source byte, so the
wrapper passes `src.length` as fuel and the fuel-exhausted arm is
unreachable. -/
def packbitsRowGo : Nat → List Nat → Nat → Except PsdStatus (List Nat × List Nat)
  | _, [], dstRem =>
    if dstRem = 0 then .ok ([], []) else .error .errCorruptData
  | 0, _ :: _, _ => .error .errCorruptData
  | fuel + 1, h :: rest, dstRem =>
    if dstRem = 0 then .error .errCorruptData
    else if h < 128 then
      let count := h + 1
      if rest.length < count then .error .errCorruptData
      else if dstRem < count then .error .errCorruptData
      else do
        let (out, rem) ← packbitsRowGo fuel (rest.drop count) (dstRem - count)
        pure (rest.take count ++ out, rem)
    else if 129 ≤ h then
      match rest with
      | [] => .error .errCorruptData
      | v :: rest2 =>
        let count := 257 - h
        if dstRem < count then .error .errCorruptData
        else do
          let (out, rem) ← packbitsRowGo fuel rest2 (dstRem - count)
          pure (List.replicate count v ++ out, rem)
    else
      packbitsRowGo fuel rest dstRem

/-- psd_packbits_decode_row (psd_layer_decode.c, lines 29-65): decode one
PackBits row of `src` into exactly `dstLen` bytes, demanding that the whole
input is consumed.  Returns the decoded bytes and the unread input suffix
(empty on every success, by the final `si != src_len` check). -/
def psd_packbits_decode_row (src : List Nat) (dstLen : Nat) :
    Except PsdStatus (List Nat × List Nat) :=
  packbitsRowGo src.length src dstLen

/-- Loop of psd_rle_decode_scanline (psd_rle.c).  The C loop runs while
`decomp_pos < width && comp_pos < compressed_len`, and afterwards demands
only `decomp_pos == width`: unconsumed trailing input is accepted. -/
def rleScanGo : Nat → List Nat → Nat → Except PsdStatus (List Nat × List Nat)
  | _, src, 0 => .ok ([], src)
  | _, [], _ + 1 => .error .errCorruptData
  | 0, _ :: _, _ + 1 => .error .errCorruptData
  | fuel + 1, h :: rest, dstRem + 1 =>
    let widthRem := dstRem + 1
    if h < 128 then
      let count := h + 1
      if widthRem < count then .error .errCorruptData
      else if rest.length < count then .error .errCorruptData
      else do
        let (out, rem) ← rleScanGo fuel (rest.drop count) (widthRem - count)
        pure (rest.take count ++ out, rem)
    else if h = 128 then
      rleScanGo fuel rest widthRem
    else
      let count := 257 - h
      match rest with
      | [] => .error .errCorruptData
      | v :: rest2 =>
        if widthRem < count then .error .errCorruptData
        else do
          let (out, rem) ← rleScanGo fuel rest2 (widthRem - count)
          pure (List.replicate count v ++ out, rem)

/-- psd_rle_decode_scanline (psd_rle.c, lines 27-94): decode one PackBits
scanline of `compressed` into exactly `width` bytes.  Returns the decoded
bytes and the unread input suffix, which the C code does not require to be
empty. -/
def psd_rle_decode_scanline (compressed : List Nat) (width : Nat) :
    Except PsdStatus (List Nat × List Nat) :=
  rleScanGo compressed.length compressed width

/-- Every success of the psd_packbits_decode_row loop produces exactly the
requested number of bytes and leaves no input unread. -/
theorem packbitsRowGo_ok (fuel : Nat) :
    ∀ (src : List Nat) (d : Nat) (out rem : List Nat),
      packbitsRowGo fuel src d = .ok (out, rem) → out.length = d ∧ rem = [] := by
  induction fuel with
  | zero =>
    intro src d out rem h
    cases src with
    | nil =>
      simp only [packbitsRowGo] at h
      split at h
      case isTrue hd =>
        obtain ⟨ho, hr⟩ : [] = out ∧ [] = rem := by simpa using h
        subst ho; subst hr; simp [hd]
      case isFalse => simp at h
    | cons x xs => simp [packbitsRowGo] at h
  | succ fuel ih =>
    intro src d out rem h
    cases src with
    | nil =>
      simp only [packbitsRowGo] at h
      split at h
      case isTrue hd =>
        obtain ⟨ho, hr⟩ : [] = out ∧ [] = rem := by simpa using h
        subst ho; subst hr; simp [hd]
      case isFalse => simp at h
    | cons x xs =>
      simp only [packbitsRowGo] at h
      split at h
      case isTrue => simp at h
      case isFalse hd =>
        split at h
        case isTrue hx =>
          split at h
          case isTrue => simp at h
          case isFalse hlen =>
            split at h
            case isTrue => simp at h
            case isFalse hcnt =>
              cases e : packbitsRowGo fuel (List.drop (x + 1) xs) (d - (x + 1)) with
              | error err => rw [e] at h; simp [Bind.bind, Except.bind] at h
              | ok pr =>
                obtain ⟨o2, r2⟩ := pr
                rw [e] at h
                simp only [Bind.bind, Except.bind, Pure.pure, Except.pure,
                  Except.ok.injEq, Prod.mk.injEq] at h
                obtain ⟨ho, hr⟩ := h
                obtain ⟨hlen2, hrem2⟩ := ih _ _ _ _ e
                subst ho; subst hr
                simp only [List.length_append, List.length_take, hlen2]
                constructor
                · omega
                · exact hrem2
        case isFalse hx =>
          split at h
          case isTrue hx2 =>
            split at h
            case h_1 => simp at h
            case h_2 v rest2 =>
              split at h
              case isTrue => simp at h
              case isFalse hcnt =>
                cases e : packbitsRowGo fuel rest2 (d - (257 - x)) with
                | error err => rw [e] at h; simp [Bind.bind, Except.bind] at h
                | ok pr =>
                  obtain ⟨o2, r2⟩ := pr
                  rw [e] at h
                  simp only [Bind.bind, Except.bind, Pure.pure, Except.pure,
                    Except.ok.injEq, Prod.mk.injEq] at h
                  obtain ⟨ho, hr⟩ := h
                  obtain ⟨hlen2, hrem2⟩ := ih _ _ _ _ e
                  subst ho; subst hr
                  simp only [List.length_append, List.length_replicate, hlen2]
                  constructor
                  · omega
                  · exact hrem2
          case isFalse hx2 =>
            exact ih _ _ _ _ h

/-- Every success of the psd_rle_decode_scanline loop produces exactly
`width` decoded bytes (the unread suffix is unconstrained). -/
theorem rleScanGo_ok (fuel : Nat) :
    ∀ (src : List Nat) (w : Nat) (out rem : List Nat),
      rleScanGo fuel src w = .ok (out, rem) → out.length = w := by
  induction fuel with
  | zero =>
    intro src w out rem h
    cases w with
    | zero =>
      cases src <;>
        · simp only [rleScanGo, Except.ok.injEq, Prod.mk.injEq] at h
          simp [← h.1]
    | succ d => cases src <;> simp [rleScanGo] at h
  | succ fuel ih =>
    intro src w out rem h
    cases w with
    | zero =>
      cases src <;>
        · simp only [rleScanGo, Except.ok.injEq, Prod.mk.injEq] at h
          simp [← h.1]
    | succ d =>
      cases src with
      | nil => simp [rleScanGo] at h
      | cons x xs =>
        simp only [rleScanGo] at h
        split at h
        case isTrue hx =>
          split at h
          case isTrue => simp at h
          case isFalse hcnt =>
            split at h
            case isTrue => simp at h
            case isFalse hlen =>
              cases e : rleScanGo fuel (List.drop (x + 1) xs) (d + 1 - (x + 1)) with
              | error err => rw [e] at h; simp [Bind.bind, Except.bind] at h
              | ok pr =>
                obtain ⟨o2, r2⟩ := pr
                rw [e] at h
                simp only [Bind.bind, Except.bind, Pure.pure, Except.pure,
                  Except.ok.injEq, Prod.mk.injEq] at h
                obtain ⟨ho, hr⟩ := h
                have hlen2 := ih _ _ _ _ e
                subst ho
                simp only [List.length_append, List.length_take, hlen2]
                omega
        case isFalse hx =>
          split at h
          case isTrue hx2 =>
            exact ih _ _ _ _ h
          case isFalse hx2 =>
            split at h
            case h_1 => simp at h
            case h_2 v rest2 =>
              split at h
              case isTrue => simp at h
              case isFalse hcnt =>
                cases e : rleScanGo fuel rest2 (d + 1 - (257 - x)) with
                | error err => rw [e] at h; simp [Bind.bind, Except.bind] at h
                | ok pr =>
                  obtain ⟨o2, r2⟩ := pr
                  rw [e] at h
                  simp only [Bind.bind, Except.bind, Pure.pure, Except.pure,
                    Except.ok.injEq, Prod.mk.injEq] at h
                  obtain ⟨ho, hr⟩ := h
                  have hlen2 := ih _ _ _ _ e
                  subst ho
                  simp only [List.length_append, List.length_replicate, hlen2]
                  omega

/-- C4: the claim states that single-row PackBits decode succeeds only when
exactly `width` bytes are produced and the whole input is consumed.  This
fails for psd_rle_decode_scanline: on input `00 AA BB` with width 1 it
succeeds after consuming only two of the three input bytes, leaving `BB`
unread instead of returning corrupt-data. -/
theorem C4_counterexample :
    psd_rle_decode_scanline [0, 170, 187] 1 = .ok ([170], [187]) ∧
      ([187] : List Nat) ≠ [] :=
  ⟨rfl, by simp⟩

/-- C4 (amended): psd_packbits_decode_row succeeds only when exactly
`dstLen` bytes are produced and the whole input is consumed (any mismatch
is corrupt-data), while psd_rle_decode_scanline enforces only that exactly
`width` bytes are produced and can succeed with unread trailing input. -/
theorem C4_theorem :
    (∀ (src : List Nat) (d : Nat) (out rem : List Nat),
        psd_packbits_decode_row src d = .ok (out, rem) →
          out.length = d ∧ rem = []) ∧
    (∀ (src : List Nat) (w : Nat) (out rem : List Nat),
        psd_rle_decode_scanline src w = .ok (out, rem) → out.length = w) :=
  ⟨fun src d out rem h => packbitsRowGo_ok src.length src d out rem h,
   fun src w out rem h => rleScanGo_ok src.length src w out rem h⟩

/-- Witness for C4_theorem: both conjuncts applied at concrete decodes. -/
theorem C4_witness :
    (([170, 187] : List Nat).length = 2 ∧ ([] : List Nat) = []) ∧
      ([204] : List Nat).length = 1 :=
  ⟨C4_theorem.1 [1, 170, 187] 2 [170, 187] [] rfl,
   C4_theorem.2 [0, 204, 99] 1 [204] [99] rfl⟩

/-- C5: the claim states that the row `02 AA BB CC 81 DD 00 EE` decodes at
width 7 to `AA BB CC DD DD DD EE`.  It does not: by the PackBits rule the
header `81` (= 129 > 128) replicates the next byte 257 - 129 = 128 times,
which overflows the 7-byte row, so both decoders return corrupt-data. -/
theorem C5_counterexample :
    psd_packbits_decode_row [2, 170, 187, 204, 129, 221, 0, 238] 7 =
        .error .errCorruptData ∧
      psd_rle_decode_scanline [2, 170, 187, 204, 129, 221, 0, 238] 7 =
        .error .errCorruptData :=
  ⟨rfl, rfl⟩

/-- C5 (amended): a three-byte run of `DD` is encoded by header `FE`
(257 - 254 = 3), so the row `02 AA BB CC FE DD 00 EE` decodes at width 7
to `AA BB CC DD DD DD EE` under both decoders, consuming all input, while
the row with header `81` in that position fails with corrupt-data. -/
theorem C5_theorem :
    psd_packbits_decode_row [2, 170, 187, 204, 254, 221, 0, 238] 7 =
        .ok ([170, 187, 204, 221, 221, 221, 238], []) ∧
      psd_rle_decode_scanline [2, 170, 187, 204, 254, 221, 0, 238] 7 =
        .ok ([170, 187, 204, 221, 221, 221, 238], []) :=
  ⟨rfl, rfl⟩

/-! ## ZIP prediction reversal and the layer channel decoder

`psd_zip_decompress` itself wraps the external zlib inflate routine, so it
is not embedded; every embedded caller takes an explicit `zipInflate`
parameter in its place.  The build without zlib replaces it by the stub
below (psd_zip.c, lines 234-248). -/

/-- Stub psd_zip_decompress used when PSD_ENABLE_ZIP is not defined
(psd_zip.c): every call reports unsupported compression. -/
def psd_zip_decompress_unavailable (_compressed : List Nat) (_outLen : Nat) :
    Except PsdStatus (List Nat) :=
  .error .errUnsupportedCompression

/-- Sequential in-place update loop: apply `f` to positions
`i, i+1, ..., i+n-1` of the buffer, threading the updated buffer through
(the shape of the C `for` loops over scanline bytes). -/
def listLoop (f : List Nat → Nat → List Nat) : List Nat → Nat → Nat → List Nat
  | arr, _, 0 => arr
  | arr, i, n + 1 => listLoop f (f arr i) (i + 1) n

/-- paeth_predictor (psd_zip.c, lines 74-88), on exact integers. -/
def paeth_predictor (a b c : Int) : Int :=
  let p := a + b - c
  let pa := (p - a).natAbs
  let pb := (p - b).natAbs
  let pc := (p - c).natAbs
  if pa ≤ pb ∧ pa ≤ pc then a
  else if pb ≤ pc then b
  else c

/-- psd_zip_reverse_prediction (psd_zip.c, lines 97-179): reverse the PNG
filter named by the first byte of `scanline` over the remaining bytes,
with the above scanline taken as zero.  The C routine works in place and
shifts the data over the filter byte; the embedding returns those
`scanline.length - 1` reconstructed bytes.  The first per-pixel loops run
exactly `bytes_per_pixel` iterations as in C (updates beyond the data are
no-ops here where C would write out of bounds). -/
def psd_zip_reverse_prediction (scanline : List Nat) (bpp : Nat) :
    Except PsdStatus (List Nat) :=
  if scanline.length = 0 then .error .errInvalidArgument
  else if bpp = 0 ∨ bpp > 8 then .error .errInvalidArgument
  else
    let filter := scanline.headD 0
    let data := scanline.tail
    let dataLen := data.length
    if filter = 0 then .ok data
    else if filter = 1 then
      .ok (listLoop
        (fun d i => d.set i ((d.getD i 0 + d.getD (i - bpp) 0) % 256))
        data bpp (dataLen - bpp))
    else if filter = 2 then .ok data
    else if filter = 3 then
      let d1 := listLoop
        (fun d i => d.set i ((d.getD i 0 + d.getD i 0 / 2) % 256))
        data 0 bpp
      .ok (listLoop
        (fun d i =>
          let left := d.getD (i - bpp) 0
          let avg := (left + 0) / 2
          d.set i ((d.getD i 0 + avg) % 256))
        d1 bpp (dataLen - bpp))
    else if filter = 4 then
      let d1 := listLoop
        (fun d i => d.set i ((d.getD i 0 + (paeth_predictor 0 0 0).toNat) % 256))
        data 0 bpp
      .ok (listLoop
        (fun d i =>
          let pred := paeth_predictor (d.getD (i - bpp) 0) 0 0
          d.set i ((d.getD i 0 + pred.toNat) % 256))
        d1 bpp (dataLen - bpp))
    else .error .errCorruptData

/-- Scanline walk of psd_zip_decompress_with_prediction (psd_zip.c, lines
211-224).  Each step reverses prediction in place on the window of
`scanlineWidth + 1` bytes at `offset`; after the in-place shift the last
window byte keeps the final reconstructed value, and the walk advances by
`scanlineWidth` as in C.  Fuel dominates the iteration count. -/
def zipPredLoop (sw bpp total : Nat) : Nat → List Nat → Nat → Except PsdStatus (List Nat)
  | 0, buf, _ => .ok buf
  | fuel + 1, buf, offset =>
    if offset < total then
      if offset + (sw + 1) > total then .ok buf
      else do
        let window := (buf.drop offset).take (sw + 1)
        let recon ← psd_zip_reverse_prediction window bpp
        let buf2 := buf.take offset ++ recon ++ [recon.getD (sw - 1) 0] ++
          buf.drop (offset + sw + 1)
        zipPredLoop sw bpp total fuel buf2 (offset + sw)
    else .ok buf

/-- psd_zip_decompress_with_prediction (psd_zip.c, lines 184-227), with the
zlib inflation abstracted as `zipInflate`. -/
def psd_zip_decompress_with_prediction
    (zipInflate : List Nat → Nat → Except PsdStatus (List Nat))
    (compressed : List Nat) (decompressedLen scanlineWidth bpp : Nat) :
    Except PsdStatus (List Nat) :=
  if scanlineWidth = 0 then .error .errInvalidArgument
  else do
    let buf ← zipInflate compressed decompressedLen
    zipPredLoop scanlineWidth bpp decompressedLen (decompressedLen + 1) buf 0

/-- C6: the spec states that prediction reversal follows the PNG filter
definitions with zero neighbors, so for the Average filter the first pixel
must be reconstructed as the filtered byte plus floor(left / 2) with
left = 0, i.e. unchanged.  The code instead computes
`data[i] + data[i] / 2` for the first pixel (psd_zip.c, line 144): on the
scanline `03 02` (Average filter, one data byte 2, one byte per pixel) it
returns 3 where the PNG reconstruction is 2. -/
theorem C6_theorem :
    psd_zip_reverse_prediction [3, 2] 1 = .ok [3] ∧ (3 : Nat) ≠ 2 :=
  ⟨rfl, by decide⟩

/-! ## Layer channel decoding (psd_layer_decode.c) -/

/-- Per-layer channel data (psd_layer_decode.h): compression kind, the
stored compressed payload, and the lazily decoded bytes.  The C pair
`compressed_data`/`compressed_length` is represented by the single list
`compressed_data`; `is_decoded` is `decoded_data.isSome`. -/
structure psd_layer_channel_data_t where
  channel_id : Int
  compression : Nat
  compressed_data : List Nat
  decoded_data : Option (List Nat)
  deriving DecidableEq, Repr

/-- Row-count summation loop of parse_rle_row_counts (psd_layer_decode.c,
lines 84-91), iterating `n` remaining rows from row index `y`. -/
def rleRowCountsLoop (compressed : List Nat) (rowBytes countsSize : Nat) :
    Nat → Nat → Nat → Except PsdStatus Nat
  | _, total, 0 => .ok total
  | y, total, n + 1 =>
    let p := compressed.drop (y * rowBytes)
    let v := if rowBytes = 2 then read_be_u16 p else read_be_u32 p
    let total2 := total + v
    if total2 > compressed.length - countsSize then .error .errCorruptData
    else rleRowCountsLoop compressed rowBytes countsSize (y + 1) total2 n

/-- parse_rle_row_counts (psd_layer_decode.c, lines 76-98): check that a
row-count table of `height` entries of `rowBytes` bytes fits, sum the
entries, and return (counts table size, summed RLE byte total). -/
def parse_rle_row_counts (compressed : List Nat) (height rowBytes : Nat) :
    Except PsdStatus (Nat × Nat) :=
  let countsSize := height * rowBytes
  if compressed.length < countsSize then .error .errCorruptData
  else do
    let total ← rleRowCountsLoop compressed rowBytes countsSize 0 0 height
    if compressed.length < countsSize + total then .error .errCorruptData
    else pure (countsSize, total)

/-- Row-count width selection of psd_layer_channel_decode (psd_layer_decode.c,
lines 180-197): given the outcomes of both parses and the payload length,
return (row-count width, counts size, RLE total) or corrupt-data. -/
def chooseRleWidth (st2 st4 : Except PsdStatus (Nat × Nat)) (len : Nat) :
    Except PsdStatus (Nat × Nat × Nat) :=
  match st2, st4 with
  | .ok (c2, t2), .ok (c4, t4) =>
    if c4 + t4 = len ∧ c2 + t2 ≠ len then .ok (4, c4, t4)
    else if c2 + t2 = len ∧ c4 + t4 ≠ len then .ok (2, c2, t2)
    else .ok (2, c2, t2)
  | .ok (c2, t2), .error _ => .ok (2, c2, t2)
  | .error _, .ok (c4, t4) => .ok (4, c4, t4)
  | .error _, .error _ => .error .errCorruptData

/-- Row-by-row PackBits decoding loop of psd_layer_channel_decode
(psd_layer_decode.c, lines 210-229), iterating `n` remaining rows from
row index `y` at RLE data offset `rleOff`. -/
def rleRowsDecode (compressed : List Nat) (rowCountBytes countsSize totalRle scanlineWidth : Nat) :
    Nat → Nat → Nat → Except PsdStatus (List Nat)
  | _, _, 0 => .ok []
  | y, rleOff, n + 1 =>
    let p := compressed.drop (y * rowCountBytes)
    let rowLen := if rowCountBytes = 2 then read_be_u16 p else read_be_u32 p
    if rleOff + rowLen > totalRle then .error .errCorruptData
    else do
      let (row, _) ← psd_packbits_decode_row
        ((compressed.drop (countsSize + rleOff)).take rowLen) scanlineWidth
      let rest ← rleRowsDecode compressed rowCountBytes countsSize totalRle
        scanlineWidth (y + 1) (rleOff + rowLen) n
      pure (row ++ rest)

/-- psd_layer_channel_decode (psd_layer_decode.c, lines 106-315): lazily
decode one layer channel for the given dimensions and depth.  Allocation
is assumed to succeed; zlib inflation is abstracted as `zipInflate`. -/
def psd_layer_channel_decode
    (zipInflate : List Nat → Nat → Except PsdStatus (List Nat))
    (channel : psd_layer_channel_data_t) (width height depth : Nat) :
    Except PsdStatus psd_layer_channel_data_t :=
  if channel.decoded_data.isSome then .ok channel
  else
    let bytes_per_sample := if depth ≥ 8 then depth / 8 else 1
    let scanline_width := if depth = 1 then (width + 7) / 8 else width * bytes_per_sample
    let expected := scanline_width * height
    match channel.compression with
    | 0 =>
      if channel.compressed_data.length < expected then .error .errCorruptData
      else .ok { channel with decoded_data := some (channel.compressed_data.take expected) }
    | 1 => do
      let st2 := parse_rle_row_counts channel.compressed_data height 2
      let st4 := parse_rle_row_counts channel.compressed_data height 4
      let (rcb, countsSize, totalRle) ← chooseRleWidth st2 st4 channel.compressed_data.length
      let rows ← rleRowsDecode channel.compressed_data rcb countsSize totalRle
        scanline_width 0 0 height
      pure { channel with decoded_data := some rows }
    | 2 =>
      match zipInflate channel.compressed_data expected with
      | .ok buf => .ok { channel with decoded_data := some buf }
      | .error .errUnsupportedCompression => .ok channel
      | .error e => .error e
    | 3 =>
      match psd_zip_decompress_with_prediction zipInflate channel.compressed_data
        expected scanline_width (if depth = 1 then 1 else depth / 8) with
      | .ok buf => .ok { channel with decoded_data := some buf }
      | .error .errUnsupportedCompression => .ok channel
      | .error e => .error e
    | _ => .error .errUnsupportedCompression

/-- C2: the claim states that when neither candidate total matches the
channel payload length exactly, RLE channel decoding fails with
corrupt-data.  It does not: on the 7-byte payload `00 03 01 AA BB CC DD`
with height 1, the 2-byte interpretation parses with end 2 + 3 = 5 which
is not the payload length 7, the 4-byte interpretation does not parse at
all, and decoding nevertheless succeeds using the 2-byte width, ignoring
the two trailing payload bytes. -/
theorem C2_counterexample :
    parse_rle_row_counts [0, 3, 1, 170, 187, 204, 221] 1 2 = .ok (2, 3) ∧
      2 + 3 ≠ ([0, 3, 1, 170, 187, 204, 221] : List Nat).length ∧
      parse_rle_row_counts [0, 3, 1, 170, 187, 204, 221] 1 4 =
        .error .errCorruptData ∧
      psd_layer_channel_decode psd_zip_decompress_unavailable
          ⟨0, 1, [0, 3, 1, 170, 187, 204, 221], none⟩ 2 1 8 =
        .ok ⟨0, 1, [0, 3, 1, 170, 187, 204, 221], some [170, 187]⟩ :=
  ⟨rfl, by decide, rfl, rfl⟩

/-- C2 (amended): both candidate row-count interpretations are computed;
when both parse (table and summed data fit the payload), the width whose
end matches the payload length exactly is selected, 2-byte being preferred
when both or neither match exactly; when only one width parses it is used;
corrupt-data arises at the selection stage only when neither
interpretation fits within the payload at all. -/
theorem C2_theorem :
    (∀ (c2 t2 c4 t4 len : Nat), c4 + t4 = len → c2 + t2 ≠ len →
        chooseRleWidth (.ok (c2, t2)) (.ok (c4, t4)) len = .ok (4, c4, t4)) ∧
    (∀ (c2 t2 c4 t4 len : Nat), c2 + t2 = len → c4 + t4 ≠ len →
        chooseRleWidth (.ok (c2, t2)) (.ok (c4, t4)) len = .ok (2, c2, t2)) ∧
    (∀ (c2 t2 c4 t4 len : Nat),
        (c2 + t2 = len ∧ c4 + t4 = len) ∨ (c2 + t2 ≠ len ∧ c4 + t4 ≠ len) →
          chooseRleWidth (.ok (c2, t2)) (.ok (c4, t4)) len = .ok (2, c2, t2)) ∧
    (∀ (zipInflate : List Nat → Nat → Except PsdStatus (List Nat))
        (ch : psd_layer_channel_data_t) (w h d : Nat) (e2 e4 : PsdStatus),
        ch.compression = 1 → ch.decoded_data = none →
        parse_rle_row_counts ch.compressed_data h 2 = .error e2 →
        parse_rle_row_counts ch.compressed_data h 4 = .error e4 →
        psd_layer_channel_decode zipInflate ch w h d = .error .errCorruptData) := by
  refine ⟨?_, ?_, ?_, ?_⟩
  · intro c2 t2 c4 t4 len h4 h2
    simp [chooseRleWidth, h4, h2]
  · intro c2 t2 c4 t4 len h2 h4
    simp [chooseRleWidth, h4, h2]
  · intro c2 t2 c4 t4 len h
    rcases h with ⟨h2, h4⟩ | ⟨h2, h4⟩ <;> simp [chooseRleWidth, h4, h2]
  · intro zipInflate ch w h d e2 e4 hcomp hdec h2 h4
    obtain ⟨id, comp, dataL, dec⟩ := ch
    simp only at hcomp hdec h2 h4
    subst hcomp; subst hdec
    simp [psd_layer_channel_decode, h2, h4, chooseRleWidth, Bind.bind, Except.bind]

/-- Witness for C2_theorem: all four conjuncts at concrete inputs. -/
theorem C2_witness :
    chooseRleWidth (.ok (2, 2)) (.ok (4, 2)) 6 = .ok (4, 4, 2) ∧
      chooseRleWidth (.ok (2, 4)) (.ok (4, 4)) 6 = .ok (2, 2, 4) ∧
      chooseRleWidth (.ok (2, 4)) (.ok (4, 2)) 6 = .ok (2, 2, 4) ∧
      psd_layer_channel_decode psd_zip_decompress_unavailable
          ⟨0, 1, [], none⟩ 1 1 8 = .error .errCorruptData :=
  ⟨C2_theorem.1 2 2 4 2 6 rfl (by decide),
   C2_theorem.2.1 2 4 4 4 6 rfl (by decide),
   C2_theorem.2.2.1 2 4 4 2 6 (Or.inl ⟨rfl, rfl⟩),
   C2_theorem.2.2.2 psd_zip_decompress_unavailable ⟨0, 1, [], none⟩ 1 1 8
     .errCorruptData .errCorruptData rfl rfl rfl rfl⟩

/-! ## Channel image data pass (psd_unicode.c, psd_parse_layer_info)

After all layer records are read, the parser reads a 2-byte compression
kind and the payload bytes for every channel of every layer
(psd_unicode.c, lines 1452-1537).  The layers are represented by their
per-channel stored `compressed_length` fields, and the stream by the
bytes from the current position. -/

/-- Result of reading one channel image record: compression kind, the
stored (possibly adjusted) length, and the payload bytes. -/
structure ParsedChannelImage where
  compression : Nat
  compressed_length : Nat
  compressed_data : List Nat
  deriving DecidableEq, Repr

/-- Byte-accounting test of psd_parse_layer_info (psd_unicode.c, lines
1469-1481): the per-channel lengths exclude the compressed field exactly
when their uint64 sum plus two bytes per channel equals the bytes
remaining in the layer-info subsection. -/
def lengths_exclude_compression (layers : List (List Nat)) (remU64 : Nat) : Bool :=
  ((layers.map (fun l => l.sum)).sum + 2 * (layers.map List.length).sum) % 2 ^ 64 == remU64

/-- Read one channel image record (psd_unicode.c, lines 1488-1535): the
2-byte compression kind (0..3), then the payload, whose length is the
stored channel length as-is when `excl`, and the stored length minus the
2-byte compression field otherwise. -/
def readChannelImage (excl : Bool) (len : Nat) (stream : List Nat) :
    Except PsdStatus (ParsedChannelImage × List Nat) :=
  if stream.length < 2 then .error .errStreamEof
  else
    let compression := read_be_u16 stream
    if compression > 3 then .error .errCorruptData
    else do
      let dataLength ←
        if excl then pure len
        else if len < 2 then (.error .errCorruptData : Except PsdStatus Nat)
        else pure (len - 2)
      let rest := stream.drop 2
      if rest.length < dataLength then .error .errStreamEof
      else .ok (⟨compression, dataLength, rest.take dataLength⟩, rest.drop dataLength)

/-- Inner loop over one layer's channels. -/
def readChannelsLoop (excl : Bool) :
    List Nat → List Nat → Except PsdStatus (List ParsedChannelImage × List Nat)
  | [], stream => .ok ([], stream)
  | len :: lens, stream => do
    let (ch, s1) ← readChannelImage excl len stream
    let (chs, s2) ← readChannelsLoop excl lens s1
    pure (ch :: chs, s2)

/-- Outer loop over the layers. -/
def readLayersLoop (excl : Bool) :
    List (List Nat) → List Nat → Except PsdStatus (List (List ParsedChannelImage) × List Nat)
  | [], stream => .ok ([], stream)
  | lens :: rest, stream => do
    let (chs, s1) ← readChannelsLoop excl lens stream
    let (layers, s2) ← readLayersLoop excl rest s1
    pure (chs :: layers, s2)

/-- Channel image data pass of psd_parse_layer_info (psd_unicode.c, lines
1452-1537): decide the length convention by byte accounting against the
bytes remaining in the layer-info subsection, then read every channel. -/
def psd_parse_channel_image_data (layers : List (List Nat)) (remaining : Int)
    (stream : List Nat) :
    Except PsdStatus (List (List ParsedChannelImage) × List Nat) :=
  if remaining < 0 then .error .errCorruptData
  else
    readLayersLoop (lengths_exclude_compression layers remaining.toNat) layers stream

/-- Reading one channel stores the payload-only length, the payload bytes
of exactly that length, and consumes 2 + payload bytes of the stream. -/
theorem readChannelImage_ok (excl : Bool) (len : Nat) (stream : List Nat)
    (ch : ParsedChannelImage) (rest : List Nat)
    (h : readChannelImage excl len stream = .ok (ch, rest)) :
    ch.compressed_length = (if excl then len else len - 2) ∧
      ch.compressed_data.length = ch.compressed_length ∧
      stream.length = rest.length + (2 + ch.compressed_length) := by
  cases excl with
  | true =>
    unfold readChannelImage at h
    simp only [if_true, Bind.bind, Except.bind, Pure.pure, Except.pure] at h
    split at h
    case isTrue => simp at h
    case isFalse h1 =>
      split at h
      case isTrue => simp at h
      case isFalse h2 =>
        split at h
        case isTrue => simp at h
        case isFalse h3 =>
          rw [Except.ok.injEq, Prod.mk.injEq] at h
          obtain ⟨hc, hr⟩ := h
          subst hc; subst hr
          simp only [List.length_drop] at h3
          simp only [List.length_take, List.length_drop, if_true]
          refine ⟨by simp, by omega, by omega⟩
  | false =>
    unfold readChannelImage at h
    simp only [if_false, Bind.bind, Except.bind, Pure.pure, Except.pure,
      Bool.false_eq_true] at h
    split at h
    case isTrue => simp at h
    case isFalse h1 =>
      split at h
      case isTrue => simp at h
      case isFalse h2 =>
        split at h
        case isTrue => simp at h
        case isFalse h4 =>
          split at h
          case isTrue => simp at h
          case isFalse h3 =>
            rw [Except.ok.injEq, Prod.mk.injEq] at h
            obtain ⟨hc, hr⟩ := h
            subst hc; subst hr
            simp only [List.length_drop] at h3
            simp only [List.length_take, List.length_drop]
            refine ⟨by simp, by omega, by omega⟩

/-- The per-layer channel loop stores payload-only lengths, payloads of
exactly those lengths, and consumes 2 + payload bytes per channel. -/
theorem readChannelsLoop_ok (excl : Bool) :
    ∀ (lens : List Nat) (stream : List Nat) (chs : List ParsedChannelImage)
      (s2 : List Nat), readChannelsLoop excl lens stream = .ok (chs, s2) →
      chs.map (fun c => c.compressed_length) =
          lens.map (fun len => if excl then len else len - 2) ∧
        (∀ c ∈ chs, c.compressed_data.length = c.compressed_length) ∧
        stream.length = s2.length + (chs.map (fun c => 2 + c.compressed_length)).sum := by
  intro lens
  induction lens with
  | nil =>
    intro stream chs s2 h
    simp only [readChannelsLoop, Except.ok.injEq, Prod.mk.injEq] at h
    obtain ⟨hc, hs⟩ := h
    subst hc; subst hs
    simp
  | cons len lens ih =>
    intro stream chs s2 h
    simp only [readChannelsLoop] at h
    cases e1 : readChannelImage excl len stream with
    | error err => rw [e1] at h; simp [Bind.bind, Except.bind] at h
    | ok pr1 =>
      obtain ⟨ch, s1⟩ := pr1
      rw [e1] at h
      simp only [Bind.bind, Except.bind] at h
      cases e2 : readChannelsLoop excl lens s1 with
      | error err => rw [e2] at h; simp at h
      | ok pr2 =>
        obtain ⟨chs2, s2b⟩ := pr2
        rw [e2] at h
        simp only [Pure.pure, Except.pure, Except.ok.injEq, Prod.mk.injEq] at h
        obtain ⟨hc, hs⟩ := h
        subst hc; subst hs
        obtain ⟨l1, d1, n1⟩ := readChannelImage_ok excl len stream ch s1 e1
        obtain ⟨l2, d2, n2⟩ := ih s1 chs2 s2b e2
        refine ⟨?_, ?_, ?_⟩
        · simp only [List.map_cons, l1, l2]
        · intro c hmem
          rcases List.mem_cons.mp hmem with hcc | hm
          · rw [hcc]; exact d1
          · exact d2 c hm
        · simp only [List.map_cons, List.sum_cons]
          omega

/-- The all-layers loop: same facts, aggregated over the layer list. -/
theorem readLayersLoop_ok (excl : Bool) :
    ∀ (layers : List (List Nat)) (stream : List Nat)
      (out : List (List ParsedChannelImage)) (s2 : List Nat),
      readLayersLoop excl layers stream = .ok (out, s2) →
      out.map (fun l => l.map (fun c => c.compressed_length)) =
          layers.map (fun lens => lens.map (fun len => if excl then len else len - 2)) ∧
        (∀ l ∈ out, ∀ c ∈ l, c.compressed_data.length = c.compressed_length) ∧
        stream.length = s2.length +
          (out.map (fun l => (l.map (fun c => 2 + c.compressed_length)).sum)).sum := by
  intro layers
  induction layers with
  | nil =>
    intro stream out s2 h
    simp only [readLayersLoop, Except.ok.injEq, Prod.mk.injEq] at h
    obtain ⟨hc, hs⟩ := h
    subst hc; subst hs
    simp
  | cons lens rest ih =>
    intro stream out s2 h
    simp only [readLayersLoop] at h
    cases e1 : readChannelsLoop excl lens stream with
    | error err => rw [e1] at h; simp [Bind.bind, Except.bind] at h
    | ok pr1 =>
      obtain ⟨chs, s1⟩ := pr1
      rw [e1] at h
      simp only [Bind.bind, Except.bind] at h
      cases e2 : readLayersLoop excl rest s1 with
      | error err => rw [e2] at h; simp at h
      | ok pr2 =>
        obtain ⟨out2, s2b⟩ := pr2
        rw [e2] at h
        simp only [Pure.pure, Except.pure, Except.ok.injEq, Prod.mk.injEq] at h
        obtain ⟨hc, hs⟩ := h
        subst hc; subst hs
        obtain ⟨l1, d1, n1⟩ := readChannelsLoop_ok excl lens stream chs s1 e1
        obtain ⟨l2, d2, n2⟩ := ih s1 out2 s2b e2
        refine ⟨?_, ?_, ?_⟩
        · simp only [List.map_cons, l1, l2]
        · intro l hmem
          rcases List.mem_cons.mp hmem with hll | hm
          · rw [hll]; exact d1
          · exact d2 l hm
        · simp only [List.map_cons, List.sum_cons]
          omega

/-- C1: after all layer records are read, the channel image data pass
decides the length convention by byte accounting: when the uint64 sum of
all stored channel lengths plus two bytes per channel equals the bytes
remaining in the layer-info subsection, the stored lengths are kept
as-is; otherwise every stored length is decremented by 2.  In both cases
the stored payload has exactly the stored (payload-only) length, and each
channel consumes exactly 2 + payload-length stream bytes (the 2-byte
compression kind followed by the payload). -/
theorem C1_theorem :
    ∀ (layers : List (List Nat)) (remaining : Int) (stream : List Nat)
      (out : List (List ParsedChannelImage)) (rest : List Nat),
      psd_parse_channel_image_data layers remaining stream = .ok (out, rest) →
      out.map (fun l => l.map (fun c => c.compressed_length)) =
          (if lengths_exclude_compression layers remaining.toNat then layers
           else layers.map (fun lens => lens.map (fun len => len - 2))) ∧
        (∀ l ∈ out, ∀ c ∈ l, c.compressed_data.length = c.compressed_length) ∧
        stream.length = rest.length +
          (out.map (fun l => (l.map (fun c => 2 + c.compressed_length)).sum)).sum := by
  intro layers remaining stream out rest h
  unfold psd_parse_channel_image_data at h
  split at h
  · simp at h
  · obtain ⟨m1, m2, m3⟩ := readLayersLoop_ok _ layers stream out rest h
    refine ⟨?_, m2, m3⟩
    cases hbe : lengths_exclude_compression layers remaining.toNat with
    | true => rw [hbe] at m1; simpa using m1
    | false => rw [hbe] at m1; simpa using m1

/-- Witness for C1_theorem: a single layer with one channel of stored
length 3 and 5 bytes remaining (3 + 2 = 5, payload-only convention). -/
theorem C1_witness :
    [[(⟨1, 3, [9, 8, 7]⟩ : ParsedChannelImage)]].map
        (fun l => l.map (fun c => c.compressed_length)) =
        (if lengths_exclude_compression [[3]] ((5 : Int)).toNat then [[3]]
         else [[3]].map (fun lens => lens.map (fun len => len - 2))) ∧
      (∀ l ∈ [[(⟨1, 3, [9, 8, 7]⟩ : ParsedChannelImage)]],
        ∀ c ∈ l, c.compressed_data.length = c.compressed_length) ∧
      ([0, 1, 9, 8, 7] : List Nat).length = ([] : List Nat).length +
        ([[(⟨1, 3, [9, 8, 7]⟩ : ParsedChannelImage)]].map
          (fun l => (l.map (fun c => 2 + c.compressed_length)).sum)).sum :=
  C1_theorem [[3]] 5 [0, 1, 9, 8, 7] [[⟨1, 3, [9, 8, 7]⟩]] [] rfl

/-! ## Header parsing (psd_unicode.c, psd_parse_header)

The byte-source reads are modelled over the remaining byte list:
psd_stream_read_exact (and the big-endian readers built on it) fails with
stream-eof when fewer bytes remain than requested. -/

/-- Read exactly `n` bytes from the stream (psd_stream_read_exact). -/
def readBytes (n : Nat) (s : List Nat) : Except PsdStatus (List Nat × List Nat) :=
  if s.length < n then .error .errStreamEof else .ok (s.take n, s.drop n)

/-- Big-endian value of a byte list (psd_read_be16 / psd_read_be32). -/
def beNat (bytes : List Nat) : Nat :=
  bytes.foldl (fun acc b => acc * 256 + b) 0

/-- PSD_SIGNATURE (psd_header.h): the four bytes 8BPS. -/
def PSD_SIGNATURE : Nat := 0x38425053

/-- PSD_VERSION_PSD (psd_header.h). -/
def PSD_VERSION_PSD : Nat := 1

/-- PSD_VERSION_PSB (psd_header.h). -/
def PSD_VERSION_PSB : Nat := 2

/-- PSD_MAX_CHANNELS (psd_header.h). -/
def PSD_MAX_CHANNELS : Nat := 56

/-- PSD_MAX_DIMENSION_STANDARD (psd_header.h). -/
def PSD_MAX_DIMENSION_STANDARD : Nat := 30000

/-- PSD_MAX_DIMENSION_PSB (psd_header.h). -/
def PSD_MAX_DIMENSION_PSB : Nat := 300000

/-- Dimension bound selection of psd_parse_header (psd_unicode.c, lines
338-339): the PSB bound for version 2, the standard bound otherwise. -/
def maxDimFor (is_psb : Bool) : Nat :=
  if is_psb then PSD_MAX_DIMENSION_PSB else PSD_MAX_DIMENSION_STANDARD

/-- Header fields of psd_document_t populated by psd_parse_header. -/
structure psd_header_t where
  is_psb : Bool
  channels : Nat
  height : Nat
  width : Nat
  depth : Nat
  color_mode : Nat
  deriving DecidableEq, Repr

/-- psd_parse_header (psd_unicode.c, lines 276-367): validate the
signature and version, consume the 6 reserved bytes, and read and
validate channel count, dimensions, depth; the color mode is stored
as-is.  Returns the header fields and the unread stream suffix. -/
def psd_parse_header (s : List Nat) : Except PsdStatus (psd_header_t × List Nat) := do
  let (sigB, s) ← readBytes 4 s
  if beNat sigB ≠ PSD_SIGNATURE then .error .errInvalidFileFormat
  else do
    let (verB, s) ← readBytes 2 s
    if beNat verB ≠ PSD_VERSION_PSD ∧ beNat verB ≠ PSD_VERSION_PSB then
      .error .errUnsupportedVersion
    else do
      let is_psb := beNat verB == PSD_VERSION_PSB
      let (_reserved, s) ← readBytes 6 s
      let (chB, s) ← readBytes 2 s
      if beNat chB < 1 ∨ beNat chB > PSD_MAX_CHANNELS then .error .errInvalidHeader
      else do
        let (hB, s) ← readBytes 4 s
        let (wB, s) ← readBytes 4 s
        let maxDim := maxDimFor is_psb
        if beNat wB < 1 ∨ beNat wB > maxDim ∨ beNat hB < 1 ∨ beNat hB > maxDim then
          .error .errInvalidHeader
        else do
          let (dB, s) ← readBytes 2 s
          if beNat dB ≠ 1 ∧ beNat dB ≠ 8 ∧ beNat dB ≠ 16 ∧ beNat dB ≠ 32 then
            .error .errInvalidHeader
          else do
            let (cmB, s) ← readBytes 2 s
            pure (⟨is_psb, beNat chB, beNat hB, beNat wB, beNat dB, beNat cmB⟩, s)

/-- Inversion for a successful bind of readBytes. -/
theorem bind_readBytes_ok {α : Type} (n : Nat) (s : List Nat)
    (f : List Nat × List Nat → Except PsdStatus α) (b : α)
    (h : (readBytes n s >>= f) = .ok b) :
    n ≤ s.length ∧ f (s.take n, s.drop n) = .ok b := by
  unfold readBytes at h
  split at h
  · simp [Bind.bind, Except.bind] at h
  case isFalse hn =>
    refine ⟨by omega, ?_⟩
    simpa [Bind.bind, Except.bind] using h

/-- Inversion for a successful functor map over readBytes. -/
theorem map_readBytes_ok {α : Type} (n : Nat) (s : List Nat)
    (f : List Nat × List Nat → α) (b : α)
    (h : (f <$> readBytes n s) = .ok b) :
    n ≤ s.length ∧ f (s.take n, s.drop n) = b := by
  unfold readBytes at h
  split at h
  · simp [Functor.map, Except.map] at h
  case isFalse hn =>
    refine ⟨by omega, ?_⟩
    simpa [Functor.map, Except.map] using h

/-- C3: every header returned by psd_parse_header satisfies the document
invariant (channel count in [1, 56], depth in {1, 8, 16, 32}, width and
height in [1, 30000] for version 1 and [1, 300000] for version 2), and its
input necessarily carried the 8BPS signature and a version field of 1 or
2 with the large-document flag set exactly for version 2 — so any stream
violating these cannot produce a header, and psd_parse_ex (which aborts
and returns no document when psd_parse_header fails, psd_unicode.c lines
1653-1661, and never writes these fields elsewhere) cannot return a
document violating them. -/
theorem C3_theorem :
    ∀ (s : List Nat) (hdr : psd_header_t) (rest : List Nat),
      psd_parse_header s = .ok (hdr, rest) →
      (1 ≤ hdr.channels ∧ hdr.channels ≤ 56) ∧
        (hdr.depth = 1 ∨ hdr.depth = 8 ∨ hdr.depth = 16 ∨ hdr.depth = 32) ∧
        (1 ≤ hdr.width ∧ hdr.width ≤ if hdr.is_psb then 300000 else 30000) ∧
        (1 ≤ hdr.height ∧ hdr.height ≤ if hdr.is_psb then 300000 else 30000) ∧
        beNat (s.take 4) = 0x38425053 ∧
        (beNat ((s.drop 4).take 2) = 1 ∨ beNat ((s.drop 4).take 2) = 2) ∧
        hdr.is_psb = (beNat ((s.drop 4).take 2) == 2) := by
  intro s hdr rest h
  unfold psd_parse_header at h
  obtain ⟨hn1, h⟩ := bind_readBytes_ok _ _ _ _ h
  dsimp only at h
  split at h
  case isTrue => simp at h
  case isFalse hsig =>
  obtain ⟨hn2, h⟩ := bind_readBytes_ok _ _ _ _ h
  dsimp only at h
  split at h
  case isTrue => simp at h
  case isFalse hver =>
  obtain ⟨hn3, h⟩ := bind_readBytes_ok _ _ _ _ h
  dsimp only at h
  obtain ⟨hn4, h⟩ := bind_readBytes_ok _ _ _ _ h
  dsimp only at h
  split at h
  case isTrue => simp at h
  case isFalse hch =>
  obtain ⟨hn5, h⟩ := bind_readBytes_ok _ _ _ _ h
  dsimp only at h
  obtain ⟨hn6, h⟩ := bind_readBytes_ok _ _ _ _ h
  dsimp only at h
  split at h
  case isTrue => simp at h
  case isFalse hdim =>
  obtain ⟨hn7, h⟩ := bind_readBytes_ok _ _ _ _ h
  dsimp only at h
  split at h
  case isTrue => simp at h
  case isFalse hdep =>
  obtain ⟨hn8, h⟩ := map_readBytes_ok _ _ _ _ h
  dsimp only at h
  obtain ⟨hh, hrest⟩ := Prod.ext_iff.mp h
  subst hh
  dsimp only
  simp only [PSD_SIGNATURE, PSD_VERSION_PSD, PSD_VERSION_PSB, PSD_MAX_CHANNELS]
    at hsig hver hch
  refine ⟨by omega, by omega, ?_, ?_, by omega, by omega, rfl⟩ <;>
    · simp only [PSD_VERSION_PSB] at hdim ⊢
      rcases Bool.eq_false_or_eq_true (beNat ((List.drop 4 s).take 2) == 2) with hb | hb <;>
        · rw [hb] at hdim
          simp only [hb]
          simp [maxDimFor, PSD_MAX_DIMENSION_PSB, PSD_MAX_DIMENSION_STANDARD] at hdim ⊢
          omega

/-- Witness for C3_theorem: a 26-byte standard-format header (8BPS,
version 1, 3 channels, 256 x 512, depth 8, RGB) parses and satisfies the
invariant. -/
theorem C3_witness :
    1 ≤ (psd_header_t.mk false 3 256 512 8 3).channels :=
  (C3_theorem
    [0x38, 0x42, 0x50, 0x53, 0, 1, 0, 0, 0, 0, 0, 0, 0, 3,
      0, 0, 1, 0, 0, 0, 2, 0, 0, 8, 0, 3]
    ⟨false, 3, 256, 512, 8, 3⟩ [] rfl).1.1

/-! ## Document model, layer features and derived layer type -/

/-- psd_layer_features_t (psd_types.h, lines 117-128). -/
structure psd_layer_features_t where
  is_group_start : Bool
  is_group_end : Bool
  has_text : Bool
  has_vector_mask : Bool
  has_smart_object : Bool
  has_adjustment : Bool
  has_fill : Bool
  has_effects : Bool
  has_3d : Bool
  has_video : Bool
  deriving DecidableEq, Repr

/-- psd_layer_type_t (psd_types.h, lines 97-109). -/
inductive psd_layer_type_t where
  | groupEnd
  | groupStart
  | pixel
  | text
  | smartObject
  | adjustment
  | fill
  | effects
  | threeD
  | video
  | empty
  deriving DecidableEq, Repr

/-- psd_layer_record_t (psd_layer.h): bounds, channels, blend data, the
raw extra-data blob and the derived feature set.  The C pair
channels/channel_count is the single list `channels`; the name fields and
the parsed descriptor pointer are not needed by the claims. -/
structure psd_layer_record_t where
  bounds_top : Int
  bounds_left : Int
  bounds_bottom : Int
  bounds_right : Int
  channels : List psd_layer_channel_data_t
  blend_sig : Nat
  blend_key : Nat
  opacity : Nat
  clipping : Nat
  flags : Nat
  additional_data : List Nat
  features : psd_layer_features_t
  deriving DecidableEq, Repr

/-- psd_document_t header fields plus the owned sections used by the
claims (color-mode data bytes and the layer records). -/
structure psd_document_t where
  is_psb : Bool
  width : Nat
  height : Nat
  channels : Nat
  depth : Nat
  color_mode : Nat
  color_data : List Nat
  layers : List psd_layer_record_t
  deriving DecidableEq, Repr

/-- psd_document_get_layer_type (psd_unicode.c, lines 2380-2419): range
check, then the feature priority chain exactly as written in the source
— is_group_start is tested before is_group_end. -/
def psd_document_get_layer_type (doc : psd_document_t) (layer_index : Int) :
    Except PsdStatus psd_layer_type_t :=
  if layer_index < 0 ∨ layer_index ≥ (doc.layers.length : Int) then .error .errOutOfRange
  else
    match doc.layers.get? layer_index.toNat with
    | none => .error .errOutOfRange
    | some layer =>
      let f := layer.features
      .ok (
        if f.is_group_start then .groupStart
        else if f.is_group_end then .groupEnd
        else if f.has_text then .text
        else if f.has_smart_object then .smartObject
        else if f.has_adjustment then .adjustment
        else if f.has_fill then .fill
        else if f.has_effects then .effects
        else if f.has_3d then .threeD
        else if f.has_video then .video
        else if layer.channels.length > 0 then .pixel
        else .empty)

/-- Feature set with both group markers set (and nothing else). -/
def groupBothFeatures : psd_layer_features_t :=
  ⟨true, true, false, false, false, false, false, false, false, false⟩

/-- A layer carrying both group markers. -/
def groupBothLayer : psd_layer_record_t :=
  ⟨0, 0, 0, 0, [], 0x3842494D, 0x6E6F726D, 255, 0, 0, [], groupBothFeatures⟩

/-- A document whose only layer carries both group markers. -/
def groupBothDoc : psd_document_t :=
  ⟨false, 1, 1, 1, 8, 3, [], [groupBothLayer]⟩

/-- C8: the claim gives the priority order group-end before group-start,
so a layer with both markers set would be classified GroupEnd.  The code
tests is_group_start first (psd_unicode.c, lines 2394-2397): such a layer
is classified GroupStart, not GroupEnd. -/
theorem C8_counterexample :
    psd_document_get_layer_type groupBothDoc 0 = .ok .groupStart ∧
      psd_layer_type_t.groupStart ≠ psd_layer_type_t.groupEnd :=
  ⟨rfl, by decide⟩

/-- Modelled from the amended spec: the derived layer type as a total
function of the feature set and channel count, in the priority order the
code implements — group-start, group-end, text, smart-object, adjustment,
fill, effects, 3d, video, then pixel or empty by channel count. -/
def layerTypeSpec (f : psd_layer_features_t) (channel_count : Nat) : psd_layer_type_t :=
  if f.is_group_start then .groupStart
  else if f.is_group_end then .groupEnd
  else if f.has_text then .text
  else if f.has_smart_object then .smartObject
  else if f.has_adjustment then .adjustment
  else if f.has_fill then .fill
  else if f.has_effects then .effects
  else if f.has_3d then .threeD
  else if f.has_video then .video
  else if channel_count > 0 then .pixel
  else .empty

/-- C8 (amended): the derived layer type is the total function of the
feature set and channel count given by the priority order group-start,
group-end, text, smart-object, adjustment, fill, effects, 3d, video, then
pixel if the channel count is positive, else empty; in particular a layer
with both group markers is classified GroupStart. -/
theorem C8_theorem :
    ∀ (doc : psd_document_t) (i : Nat) (hi : i < doc.layers.length),
      psd_document_get_layer_type doc i =
        .ok (layerTypeSpec (doc.layers.get ⟨i, hi⟩).features
          (doc.layers.get ⟨i, hi⟩).channels.length) := by
  intro doc i hi
  unfold psd_document_get_layer_type
  rw [if_neg (by omega)]
  have ht : ((i : Int)).toNat = i := Int.toNat_natCast i
  rw [ht, List.get?_eq_get hi]
  rfl

/-- Witness for C8_theorem: applied to the both-markers document. -/
theorem C8_witness :
    psd_document_get_layer_type groupBothDoc 0 =
      .ok (layerTypeSpec (groupBothDoc.layers.get ⟨0, by decide⟩).features
        (groupBothDoc.layers.get ⟨0, by decide⟩).channels.length) :=
  C8_theorem groupBothDoc 0 (by decide)

/-! ## Text-layer index (psd_text_layer_parse.c) -/

/-- Source marker of a derived text-layer record. -/
inductive psd_text_source_t where
  | tysh
  | tyshLegacy
  deriving DecidableEq, Repr

/-- Derived text-layer record (psd_text_layer.h): layer index, source
marker, the retained raw payload, and the has-rendered-pixels flag.  The
eagerly extracted doubles (transform and text bounds) are IEEE floats and
are not modelled. -/
structure psd_text_layer_t where
  layer_index : Nat
  source : psd_text_source_t
  raw_tysh : List Nat
  has_rendered_pixels : Bool
  deriving DecidableEq, Repr

/-- Record construction shared by the TySh and tySh arms of
psd_parse_text_layers (psd_text_layer_parse.c, lines 266-311): the raw
payload is retained and has_rendered_pixels is derived from the channel
count and bounds. -/
def mkTextLayerRecord (i : Nat) (src : psd_text_source_t)
    (layer : psd_layer_record_t) (payload : List Nat) : psd_text_layer_t :=
  ⟨i, src, payload,
    decide (0 < layer.channels.length) &&
      decide (0 < layer.bounds_right - layer.bounds_left) &&
      decide (0 < layer.bounds_bottom - layer.bounds_top)⟩

/-- Tagged-block scan loop of psd_parse_text_layers
(psd_text_layer_parse.c, lines 237-315).  Fuel dominates the iteration
count: the wrapper passes `remaining`, and every iteration consumes a
block of at least 12 bytes of `remaining`. -/
def scanTaggedBlocks (li : Nat) (layer : psd_layer_record_t) :
    Nat → List Nat → Nat → List psd_text_layer_t
  | 0, _, _ => []
  | fuel + 1, data, remaining =>
    if remaining < 8 then []
    else
      let block_len := read_be_u32 (data.drop 8)
      if block_len > u64sub remaining 12 then []
      else
        let block_total := 12 + block_len + (if block_len % 2 = 1 then 1 else 0)
        if block_total > remaining then []
        else
          let sig_val := read_be_u32 data
          if sig_val ≠ 0x3842494D ∧ sig_val ≠ 0x3842364D then
            scanTaggedBlocks li layer fuel (data.drop block_total) (remaining - block_total)
          else
            let key_val := read_be_u32 (data.drop 4)
            let payload := (data.drop 12).take block_len
            if key_val = 0x54795368 then
              mkTextLayerRecord li .tysh layer payload ::
                scanTaggedBlocks li layer fuel (data.drop block_total) (remaining - block_total)
            else if key_val = 0x74795368 then
              mkTextLayerRecord li .tyshLegacy layer payload ::
                scanTaggedBlocks li layer fuel (data.drop block_total) (remaining - block_total)
            else
              scanTaggedBlocks li layer fuel (data.drop block_total) (remaining - block_total)

/-- The mask-data, blending-range and layer-name skips performed on the
extra-data before the tagged-block scan (psd_text_layer_parse.c, lines
197-234).  Returns the remaining bytes and their count. -/
def skipExtraDataRegions (extra : List Nat) : List Nat × Nat :=
  let step4 := fun (p : List Nat × Nat) =>
    if p.2 ≥ 4 then
      let sub_len := read_be_u32 p.1
      let data := p.1.drop 4
      let rem := p.2 - 4
      if sub_len > 0 ∧ sub_len ≤ rem then (data.drop sub_len, rem - sub_len)
      else (data, rem)
    else p
  let p1 := step4 (extra, extra.length)
  let p2 := step4 p1
  if p2.2 ≥ 1 then
    let name_len := p2.1.headD 0
    let name_total0 := 1 + name_len
    let name_total :=
      if name_total0 % 4 ≠ 0 then name_total0 + (4 - name_total0 % 4) else name_total0
    if name_total ≤ p2.2 then (p2.1.drop name_total, p2.2 - name_total) else p2
  else p2

/-- psd_parse_text_layers (psd_text_layer_parse.c, lines 178-319): for
each layer with the has-text feature and at least 12 bytes of extra-data,
skip the three leading sub-regions and scan the tagged blocks for text
records. -/
def psd_parse_text_layers (doc : psd_document_t) : List psd_text_layer_t :=
  if doc.layers.length = 0 then []
  else
    doc.layers.enum.flatMap fun p =>
      let i := p.1
      let layer := p.2
      if ¬layer.features.has_text ∨ layer.additional_data.length < 12 then []
      else
        let skipped := skipExtraDataRegions layer.additional_data
        scanTaggedBlocks i layer skipped.2 skipped.1 skipped.2

/-- Feature set with only has-text set. -/
def textOnlyFeatures : psd_layer_features_t :=
  ⟨false, false, true, false, false, false, false, false, false, false⟩

/-- A text layer whose extra-data holds empty mask, blend and name
regions followed by one TySh tagged block carrying the signature 8B64
(38 42 36 34) and a 4-byte payload. -/
def textLayer8B64 : psd_layer_record_t :=
  ⟨0, 0, 0, 0, [], 0x3842494D, 0, 255, 0, 0,
    [0, 0, 0, 0, 0, 0, 0, 0, 0, 0, 0, 0,
      0x38, 0x42, 0x36, 0x34, 0x54, 0x79, 0x53, 0x68, 0, 0, 0, 4,
      0xAA, 0xBB, 0xCC, 0xDD],
    textOnlyFeatures⟩

/-- The same layer with the block signed 8BIM (38 42 49 4D). -/
def textLayer8BIM : psd_layer_record_t :=
  ⟨0, 0, 0, 0, [], 0x3842494D, 0, 255, 0, 0,
    [0, 0, 0, 0, 0, 0, 0, 0, 0, 0, 0, 0,
      0x38, 0x42, 0x49, 0x4D, 0x54, 0x79, 0x53, 0x68, 0, 0, 0, 4,
      0xAA, 0xBB, 0xCC, 0xDD],
    textOnlyFeatures⟩

/-- Document with the 8B64-signed text layer. -/
def textDoc8B64 : psd_document_t := ⟨false, 1, 1, 1, 8, 3, [], [textLayer8B64]⟩

/-- Document with the 8BIM-signed text layer. -/
def textDoc8BIM : psd_document_t := ⟨false, 1, 1, 1, 8, 3, [], [textLayer8BIM]⟩

/-- C9: the claim states that TySh blocks under either valid tagged-block
signature 8BIM (0x3842494D) or 8B64 (0x38423634) produce a text-layer
record.  The signature test at psd_text_layer_parse.c line 256 compares
against 0x3842364D (the bytes 8B6M) instead of 0x38423634, so a TySh
block signed 8B64 is skipped and no record is emitted, while the same
block signed 8BIM produces one record retaining the raw payload. -/
theorem C9_theorem :
    psd_parse_text_layers textDoc8B64 = [] ∧
      psd_parse_text_layers textDoc8BIM =
        [⟨0, .tysh, [0xAA, 0xBB, 0xCC, 0xDD], false⟩] :=
  ⟨rfl, rfl⟩

/-! ## Rendering to RGBA8 (psd_render.c)

The D50-Lab float conversion (lab_d50_to_srgb_u8 and the sample decoding
around it, psd_render.c lines 75-152 and 250-270) is IEEE-754 float
arithmetic and is abstracted as the `labConv` parameter, mapping the
three plane byte suffixes and the depth to an (r, g, b) triple.  Nothing
proved below depends on it. -/

/-- Type of the abstracted Lab-to-sRGB sample conversion. -/
def LabConv : Type := List Nat → List Nat → List Nat → Nat → Nat × Nat × Nat

/-- bytes_per_sample (psd_render.c, lines 30-37). -/
def bytes_per_sample (depth_bits : Nat) : Nat :=
  if depth_bits = 8 then 1
  else if depth_bits = 16 then 2
  else if depth_bits = 32 then 4
  else if depth_bits = 1 then 0
  else 1

/-- sample_to_u8 (psd_render.c, lines 44-50): every depth takes the first
(most significant) byte of the big-endian sample. -/
def sample_to_u8 (p : List Nat) (depth_bits : Nat) : Nat :=
  if depth_bits = 8 then p.headD 0
  else if depth_bits = 16 then p.headD 0
  else if depth_bits = 32 then p.headD 0
  else p.headD 0

/-- One pixel of the loop body of render_planar_to_rgba8 (psd_render.c,
lines 186-284): returns the four RGBA bytes written for pixel (x, y). -/
def renderPixel (labConv : LabConv) (mode depth width rowBytes bps : Nat)
    (planes : List (Option (List Nat))) (plane_count : Nat)
    (cmData : Option (List Nat)) (cmLen : Nat) (y x : Nat) :
    Except PsdStatus (List Nat) :=
  if depth = 1 then
    match planes.getD 0 none with
    | none => .error .errCorruptData
    | some pl =>
      let off := y * rowBytes + x / 8
      let bit := 7 - x % 8
      let v := if (pl.getD off 0) >>> bit % 2 = 1 then 255 else 0
      .ok [v, v, v, 255]
  else
    let idx := y * width + x
    let p0 := (planes.getD 0 none).map (fun pl => pl.drop (idx * bps))
    let p1 := if plane_count > 1 then (planes.getD 1 none).map (fun pl => pl.drop (idx * bps)) else none
    let p2 := if plane_count > 2 then (planes.getD 2 none).map (fun pl => pl.drop (idx * bps)) else none
    let p3 := if plane_count > 3 then (planes.getD 3 none).map (fun pl => pl.drop (idx * bps)) else none
    let p4 := if plane_count > 4 then (planes.getD 4 none).map (fun pl => pl.drop (idx * bps)) else none
    if mode = 3 then
      let r := match p0 with | some p => sample_to_u8 p depth | none => 0
      let g := match p1 with | some p => sample_to_u8 p depth | none => r
      let b := match p2 with | some p => sample_to_u8 p depth | none => r
      let a := match p3 with | some p => sample_to_u8 p depth | none => 255
      .ok [r, g, b, a]
    else if mode = 1 ∨ mode = 8 then
      let r := match p0 with | some p => sample_to_u8 p depth | none => 0
      let a := match p1 with | some p => sample_to_u8 p depth | none => 255
      .ok [r, r, r, a]
    else if mode = 2 then
      let key := match p0 with | some p => sample_to_u8 p depth | none => 0
      let a := match p1 with | some p => sample_to_u8 p depth | none => 255
      match cmData with
      | some cm =>
        if cmLen ≥ 768 then .ok [cm.getD key 0, cm.getD (256 + key) 0, cm.getD (512 + key) 0, a]
        else .ok [key, key, key, a]
      | none => .ok [key, key, key, a]
    else if mode = 4 then
      let c := match p0 with | some p => sample_to_u8 p depth | none => 0
      let m := match p1 with | some p => sample_to_u8 p depth | none => 0
      let yv := match p2 with | some p => sample_to_u8 p depth | none => 0
      let k := match p3 with | some p => sample_to_u8 p depth | none => 0
      let a := match p4 with | some p => sample_to_u8 p depth | none => 255
      .ok [255 - min 255 (c + k), 255 - min 255 (m + k), 255 - min 255 (yv + k), a]
    else if mode = 9 then
      match p0, p1, p2 with
      | some q0, some q1, some q2 =>
        let rgb := labConv q0 q1 q2 depth
        let a := match p3 with | some p => sample_to_u8 p depth | none => 255
        .ok [rgb.1, rgb.2.1, rgb.2.2, a]
      | _, _, _ => .error .errCorruptData
    else .error .errUnsupportedColorMode

/-- Inner x loop of render_planar_to_rgba8, `n` pixels from column `x`. -/
def renderRow (labConv : LabConv) (mode depth width rowBytes bps : Nat)
    (planes : List (Option (List Nat))) (plane_count : Nat)
    (cmData : Option (List Nat)) (cmLen : Nat) (y : Nat) :
    Nat → Nat → Except PsdStatus (List Nat)
  | _, 0 => .ok []
  | x, n + 1 => do
    let px ← renderPixel labConv mode depth width rowBytes bps planes plane_count
      cmData cmLen y x
    let rest ← renderRow labConv mode depth width rowBytes bps planes plane_count
      cmData cmLen y (x + 1) n
    pure (px ++ rest)

/-- Outer y loop of render_planar_to_rgba8, `n` rows from row `y`. -/
def renderRows (labConv : LabConv) (mode depth width rowBytes bps : Nat)
    (planes : List (Option (List Nat))) (plane_count : Nat)
    (cmData : Option (List Nat)) (cmLen : Nat) :
    Nat → Nat → Except PsdStatus (List Nat)
  | _, 0 => .ok []
  | y, n + 1 => do
    let row ← renderRow labConv mode depth width rowBytes bps planes plane_count
      cmData cmLen y 0 width
    let rest ← renderRows labConv mode depth width rowBytes bps planes plane_count
      cmData cmLen (y + 1) n
    pure (row ++ rest)

/-- render_planar_to_rgba8 (psd_render.c, lines 154-289): report the
required size, check the caller buffer, accept only depths 1, 8 and 16,
and produce the interleaved RGBA bytes.  The uint64 product wraps modulo
2 ^ 64 as in C (the SIZE_MAX comparison can never fire on an LP64 host
and is dropped); the buffer is modelled by its presence and size, and the
returned list is what the C code writes into it. -/
def render_planar_to_rgba8 (labConv : LabConv) (mode depth width height : Nat)
    (planes : List (Option (List Nat))) (plane_count : Nat) (_plane_bytes : Nat)
    (cmData : Option (List Nat)) (cmLen : Nat)
    (outPresent : Bool) (outSize : Nat) : Nat × Except PsdStatus (List Nat) :=
  let required := (width * height * 4) % 2 ^ 64
  (required,
    if ¬outPresent ∨ outSize < required then .error .errBufferTooSmall
    else if width = 0 ∨ height = 0 then .ok []
    else if ¬(depth = 1 ∨ depth = 8 ∨ depth = 16) then .error .errUnsupportedFeature
    else
      let bps := bytes_per_sample depth
      let rowBytes := if depth = 1 then (width + 7) / 8 else 0
      renderRows labConv mode depth width rowBytes bps planes plane_count
        cmData cmLen 0 height)

/-- A concrete stand-in for the abstracted Lab conversion. -/
def labConvZero : LabConv := fun _ _ _ _ => (0, 0, 0)

/-- C7: the claim states that depth-32 samples are reduced to their most
significant byte and that rendering a depth-32 document succeeds.  It
does not: render_planar_to_rgba8 accepts only depths 1, 8 and 16
(psd_render.c, line 179) and rejects an otherwise valid depth-32 call
with the unsupported-feature error before any sample is read. -/
theorem C7_counterexample :
    (render_planar_to_rgba8 labConvZero 3 32 1 1
        [some [0, 0, 0, 0], none, none, none, none] 3 4 none 0 true 4).2 =
      .error .errUnsupportedFeature :=
  rfl

/-- C7 (amended): sample_to_u8 reduces every sample to its first (most
significant) byte for depths 8, 16 and 32 alike, but
render_planar_to_rgba8 admits only depths 1, 8 and 16: any depth-32 call
that passes the buffer check with nonzero dimensions fails with
unsupported-feature, so depth-32 documents are not rendered. -/
theorem C7_theorem :
    (∀ (p : List Nat), sample_to_u8 p 8 = p.headD 0 ∧ sample_to_u8 p 16 = p.headD 0 ∧
        sample_to_u8 p 32 = p.headD 0) ∧
    (∀ (labConv : LabConv) (mode w h : Nat) (planes : List (Option (List Nat)))
        (pc pb : Nat) (cm : Option (List Nat)) (cml osz : Nat),
        0 < w → 0 < h → (w * h * 4) % 2 ^ 64 ≤ osz →
        (render_planar_to_rgba8 labConv mode 32 w h planes pc pb cm cml true osz).2 =
          .error .errUnsupportedFeature) := by
  constructor
  · intro p
    exact ⟨rfl, rfl, rfl⟩
  · intro labConv mode w h planes pc pb cm cml osz hw hh hsz
    unfold render_planar_to_rgba8
    dsimp only
    rw [if_neg (by simp; omega)]
    rw [if_neg (by omega)]
    rw [if_pos (by decide)]

/-- Witness for C7_theorem: both conjuncts at concrete inputs. -/
theorem C7_witness :
    (sample_to_u8 [7, 9] 8 = ([7, 9] : List Nat).headD 0 ∧
        sample_to_u8 [7, 9] 16 = ([7, 9] : List Nat).headD 0 ∧
        sample_to_u8 [7, 9] 32 = ([7, 9] : List Nat).headD 0) ∧
      (render_planar_to_rgba8 labConvZero 3 32 1 1
          [some [0, 0, 0, 0], none, none, none, none] 3 4 none 0 true 8).2 =
        .error .errUnsupportedFeature :=
  ⟨C7_theorem.1 [7, 9],
   C7_theorem.2 labConvZero 3 1 1 [some [0, 0, 0, 0], none, none, none, none]
     3 4 none 0 8 (by decide) (by decide) (by decide)⟩

/-! ## Layer rendering entry point (psd_render.c, psd_unicode.c accessors) -/

/-- psd_document_get_layer_bounds (psd_unicode.c, lines 2233-2258). -/
def psd_document_get_layer_bounds (doc : psd_document_t) (index : Int) :
    Except PsdStatus (Int × Int × Int × Int) :=
  if index < 0 ∨ index ≥ (doc.layers.length : Int) then .error .errOutOfRange
  else
    match doc.layers.get? index.toNat with
    | none => .error .errOutOfRange
    | some layer => .ok (layer.bounds_top, layer.bounds_left, layer.bounds_bottom, layer.bounds_right)

/-- psd_document_get_layer_channel_count (psd_unicode.c, lines 2309-2323). -/
def psd_document_get_layer_channel_count (doc : psd_document_t) (index : Int) :
    Except PsdStatus Nat :=
  if index < 0 ∨ index ≥ (doc.layers.length : Int) then .error .errOutOfRange
  else
    match doc.layers.get? index.toNat with
    | none => .error .errOutOfRange
    | some layer => .ok layer.channels.length

/-- psd_document_get_layer_channel_data (psd_unicode.c, lines 2593-2696):
returns the values written to the out parameters (channel id, data,
length, compression).  For a zero-sized layer the C code returns early
with the initial outputs (id 0, no data, length 0, compression 0); the
uint32 casts of the bounds differences wrap modulo 2 ^ 32 as in C.  The
never-loaded branch (compressed_data NULL) is not representable here since
a parsed document always allocates the payload buffer. -/
def psd_document_get_layer_channel_data
    (zipInflate : List Nat → Nat → Except PsdStatus (List Nat))
    (doc : psd_document_t) (layer_index : Int) (channel_index : Nat) :
    Except PsdStatus (Int × Option (List Nat) × Nat × Nat) :=
  if layer_index < 0 ∨ layer_index ≥ (doc.layers.length : Int) then .error .errOutOfRange
  else
    match doc.layers.get? layer_index.toNat with
    | none => .error .errOutOfRange
    | some layer =>
      if channel_index ≥ layer.channels.length then .error .errOutOfRange
      else
        match layer.channels.get? channel_index with
        | none => .error .errOutOfRange
        | some channel =>
          let layer_width := ((layer.bounds_right - layer.bounds_left) % (2 ^ 32 : Int)).toNat
          let layer_height := ((layer.bounds_bottom - layer.bounds_top) % (2 ^ 32 : Int)).toNat
          if layer_width = 0 ∨ layer_height = 0 then .ok (0, none, 0, 0)
          else
            let channel_depth :=
              if channel.channel_id = -2 then 8
              else if channel.channel_id = -3 then 8
              else doc.depth
            let afterDecode :=
              if channel.decoded_data.isSome then .ok channel
              else psd_layer_channel_decode zipInflate channel layer_width layer_height channel_depth
            match afterDecode with
            | .error e =>
              if e = .errUnsupportedCompression then
                if channel.compression > 3 then .error .errCorruptData
                else .ok (channel.channel_id, some channel.compressed_data,
                  channel.compressed_data.length, channel.compression)
              else .error e
            | .ok ch2 =>
              let dataOut := if ch2.decoded_data.isSome then ch2.decoded_data
                else some ch2.compressed_data
              let lenOut := match ch2.decoded_data with
                | some d => d.length
                | none => ch2.compressed_data.length
              if ch2.compression > 3 then .error .errCorruptData
              else .ok (ch2.channel_id, dataOut, lenOut, ch2.compression)

/-- Plane collection loop of psd_document_render_layer_rgba8
(psd_render.c, lines 415-431): walk `n` channels from index `i`, skipping
failed or empty channels, and file plane pointers by channel id (0..3
directly, -1 into slot 4). -/
def collectPlanes (zipInflate : List Nat → Nat → Except PsdStatus (List Nat))
    (doc : psd_document_t) (layer_index : Int) :
    Nat → Nat → List (Option (List Nat)) → List (Option (List Nat))
  | _, 0, planes => planes
  | i, n + 1, planes =>
    let planes2 :=
      match psd_document_get_layer_channel_data zipInflate doc layer_index i with
      | .error _ => planes
      | .ok (cid, dataOpt, len, _) =>
        match dataOpt with
        | none => planes
        | some d =>
          if len = 0 then planes
          else if 0 ≤ cid ∧ cid < 4 then planes.set cid.toNat (some d)
          else if cid = -1 then planes.set 4 (some d)
          else planes
    collectPlanes zipInflate doc layer_index (i + 1) n planes2

/-- Plane ordering by color mode (psd_render.c, lines 433-469): base
channels first, the alpha plane (slot 4) appended when present. -/
def orderPlanes (mode : Nat) (planes : List (Option (List Nat))) :
    Except PsdStatus (List (Option (List Nat)) × Nat) :=
  let p := fun i => planes.getD i none
  if mode = 3 then
    .ok ([p 0, p 1, p 2, if (p 4).isSome then p 4 else none, none],
      if (p 4).isSome then 4 else 3)
  else if mode = 1 ∨ mode = 8 ∨ mode = 2 then
    .ok ([p 0, if (p 4).isSome then p 4 else none, none, none, none],
      if (p 4).isSome then 2 else 1)
  else if mode = 4 then
    .ok ([p 0, p 1, p 2, p 3, if (p 4).isSome then p 4 else none],
      if (p 4).isSome then 5 else 4)
  else if mode = 9 then
    .ok ([p 0, p 1, p 2, if (p 4).isSome then p 4 else none, none],
      if (p 4).isSome then 4 else 3)
  else .error .errUnsupportedColorMode

/-- psd_document_render_layer_rgba8 (psd_render.c, lines 374-486): fetch
the layer bounds, derive the output dimensions (zero when the bounds are
inverted or empty), report the required size, check the caller buffer,
return success immediately for zero-sized output, and otherwise gather
the planes and render.  The first component is the value written to
out_required_size (none when the function fails before reaching it). -/
def psd_document_render_layer_rgba8 (labConv : LabConv)
    (zipInflate : List Nat → Nat → Except PsdStatus (List Nat))
    (doc : psd_document_t) (layer_index : Int)
    (outPresent : Bool) (outSize : Nat) :
    Option Nat × Except PsdStatus (List Nat) :=
  match psd_document_get_layer_bounds doc layer_index with
  | .error st => (none, .error st)
  | .ok (top, left, bottom, right) =>
    let width : Nat := if right > left then (right - left).toNat else 0
    let height : Nat := if bottom > top then (bottom - top).toNat else 0
    let required := (width * height * 4) % 2 ^ 64
    if ¬outPresent ∨ outSize < required then (some required, .error .errBufferTooSmall)
    else if width = 0 ∨ height = 0 then (some required, .ok [])
    else
      match psd_document_get_layer_channel_count doc layer_index with
      | .error st => (some required, .error st)
      | .ok channel_count =>
        let planes := collectPlanes zipInflate doc layer_index 0 channel_count
          [none, none, none, none, none]
        match orderPlanes doc.color_mode planes with
        | .error st => (some required, .error st)
        | .ok op =>
          let bps := bytes_per_sample doc.depth
          if doc.depth ≠ 1 ∧ bps = 0 then (some required, .error .errInvalidArgument)
          else
            let plane_bytes :=
              if doc.depth = 1 then ((width + 7) / 8) * height else width * height * bps
            let cmData := if doc.color_data.isEmpty then none else some doc.color_data
            let res := render_planar_to_rgba8 labConv doc.color_mode doc.depth width height
              op.1 op.2 plane_bytes cmData doc.color_data.length outPresent outSize
            (some res.1, res.2)

/-- C10: for every valid layer index whose stored bounds satisfy
right ≤ left or bottom ≤ top, the layer renderer reports a required
output size of 0 and returns success with no bytes written for any
non-null output buffer — the inverted or empty bounds never produce an
error. -/
theorem C10_theorem :
    ∀ (labConv : LabConv) (zipInflate : List Nat → Nat → Except PsdStatus (List Nat))
      (doc : psd_document_t) (i : Nat) (hi : i < doc.layers.length) (outSize : Nat),
      ((doc.layers.get ⟨i, hi⟩).bounds_right ≤ (doc.layers.get ⟨i, hi⟩).bounds_left ∨
        (doc.layers.get ⟨i, hi⟩).bounds_bottom ≤ (doc.layers.get ⟨i, hi⟩).bounds_top) →
      psd_document_render_layer_rgba8 labConv zipInflate doc i true outSize =
        (some 0, .ok []) := by
  intro labConv zipInflate doc i hi outSize hbz
  unfold psd_document_render_layer_rgba8 psd_document_get_layer_bounds
  rw [if_neg (by omega)]
  rw [Int.toNat_natCast i, List.get?_eq_get hi]
  dsimp only
  rcases hbz with hb | hb
  · rw [if_neg (by omega : ¬(doc.layers.get ⟨i, hi⟩).bounds_right > (doc.layers.get ⟨i, hi⟩).bounds_left)]
    simp
  · rw [if_neg (by omega : ¬(doc.layers.get ⟨i, hi⟩).bounds_bottom > (doc.layers.get ⟨i, hi⟩).bounds_top)]
    simp

/-- Feature set with nothing set. -/
def noFeatures : psd_layer_features_t :=
  ⟨false, false, false, false, false, false, false, false, false, false⟩

/-- A layer with inverted bounds (right 2 ≤ left 5, bottom 0 ≤ top 0). -/
def invertedBoundsLayer : psd_layer_record_t :=
  ⟨0, 5, 0, 2, [⟨0, 0, [], none⟩], 0x3842494D, 0, 255, 0, 0, [], noFeatures⟩

/-- Document holding the inverted-bounds layer. -/
def invertedBoundsDoc : psd_document_t :=
  ⟨false, 10, 10, 3, 8, 3, [], [invertedBoundsLayer]⟩

/-- Witness for C10_theorem: the inverted-bounds layer renders to a
required size of 0 and success with an (empty) non-null buffer. -/
theorem C10_witness :
    psd_document_render_layer_rgba8 labConvZero psd_zip_decompress_unavailable
        invertedBoundsDoc 0 true 0 = (some 0, .ok []) :=
  C10_theorem labConvZero psd_zip_decompress_unavailable invertedBoundsDoc 0
    (by decide) 0 (Or.inl (by decide))

end OpenPSD
